import Mathlib

/-!
Shallow embedding of the human-in-the-loop arbitration engine of
`src/app.py` (FastAPI application).

The external collaborators are taken as inputs, exactly as the design
treats them:
- the language-model inference call (`model_with_tools.invoke`) is opaque:
  its parsed output (`content` plus `tool_calls`) is a parameter;
- the Tavily web-search provider behind the `search` tool is opaque: it is
  a parameter of type `SearchFn` which either returns a result list or
  raises (modelled as `Except`);
- `uuid.uuid4()` draws are parameters (`sessionUuid`, `approvalUuid`).

Mutable module state (`sessions`, `pending_approvals`) is threaded as an
explicit `AppState`.  Python `dict`s keyed by strings are association
lists with unique keys; `lookupA` / `updateA` / `eraseA` model
`d[k]` / `d[k] = v` / `del d[k]`.  Raised `HTTPException`s become the
`Except.error` branch of the endpoint results.  In addition, `AppState`
carries a ghost log `executed` recording every call of
`tool_mapping[tool_name].invoke(tool_args)`, so that "the executor is /
is not invoked" is a statement about the final state.
-/

namespace HITL

/-- JSON-style primitive values appearing in tool argument mappings
(`tool_args` is `json.loads` of the model-emitted argument object). -/
inductive JValue where
  | int (n : Int)
  | str (s : String)
  | bool (b : Bool)
  | null
  deriving DecidableEq, Repr

/-- An argument mapping: string keys to primitive values (a Python dict). -/
abbrev Args := List (String × JValue)

/-- Python `str(...)` of a primitive value, as used by f-string interpolation. -/
def JValue.pyStr : JValue → String
  | .int n => toString n
  | .str s => s
  | .bool b => if b then "True" else "False"
  | .null => "None"

/-- Dict read `d.get(k)` / `k in d` + `d[k]`: first binding of the key. -/
def lookupA {α : Type} (k : String) : List (String × α) → Option α
  | [] => none
  | (k', v) :: rest => if k' = k then some v else lookupA k rest

/-- Dict write `d[k] = v`: replace the binding if present, else append. -/
def updateA {α : Type} (k : String) (v : α) : List (String × α) → List (String × α)
  | [] => [(k, v)]
  | (k', v') :: rest => if k' = k then (k, v) :: rest else (k', v') :: updateA k v rest

/-- Dict delete `del d[k]`: drop every binding of the key. -/
def eraseA {α : Type} (k : String) : List (String × α) → List (String × α)
  | [] => []
  | (k', v') :: rest => if k' = k then eraseA k rest else (k', v') :: eraseA k rest

/-- One transcript entry of a session: the dicts
`{"type": "user"/"ai", "content": ...}` stored in
`sessions[session_id]["messages"]`. -/
structure Turn where
  type : String
  content : String
  deriving DecidableEq, Repr

/-- A pending-approval record: the dict stored in
`pending_approvals[approval_id]`. -/
structure ApprovalData where
  session_id : String
  tool_name : String
  tool_args : Args
  original_query : String
  deriving DecidableEq, Repr

/-- The module-level mutable state of `app.py`: the `sessions` and
`pending_approvals` dicts, plus the ghost log `executed` of every
`tool_mapping[...].invoke(...)` call (name, args). -/
structure AppState where
  sessions : List (String × List Turn)
  pending_approvals : List (String × ApprovalData)
  executed : List (String × Args)
  deriving DecidableEq, Repr

/-- One item of a Tavily search-result list: a dict with optional
`title` / `content` / `url` fields (read with `.get` and a default). -/
structure SearchItem where
  title : Option String
  content : Option String
  url : Option String
  deriving DecidableEq, Repr

/-- The opaque web-search provider: query in, either a ranked result list
or a raised exception (carried as its message). -/
abbrev SearchFn := String → Except String (List SearchItem)

/-- Result value of a tool invocation: `multiply` returns an int,
`search` returns a result list. -/
inductive ToolResult where
  | int (n : Int)
  | list (items : List SearchItem)
  deriving DecidableEq, Repr

/-- Python `str(result)` as interpolated into the reply text.  The raw
repr of a result list is abbreviated: in the application a `search`
result list is always routed through `formatSearchResults` instead, and
`multiply` results are ints, so this arm is unreachable in the modelled
flows. -/
def ToolResult.pyStr : ToolResult → String
  | .int n => toString n
  | .list _ => "[...]"

/-- The exception raised by `tool_mapping[name].invoke(args)`:
a pydantic `ValidationError` naming the offending argument fields
(argument shape mismatch), or a runtime error of the tool body
(provider outage, missing tool, ...) carrying its message. -/
inductive ExecFailure where
  | invalidArguments (fields : List String)
  | executionError (msg : String)
  deriving DecidableEq, Repr

/-- `str(e)` of the raised exception: a `ValidationError` message names
each offending field; a runtime error carries its own message. -/
def failureMsg : ExecFailure → String
  | .invalidArguments fields =>
      "validation error for fields: " ++ String.intercalate ", " fields
  | .executionError m => m

/-- Pydantic validation of an `int` field (lax mode: ints accepted,
numeric strings coerced). -/
def coerceInt : JValue → Option Int
  | .int n => some n
  | .str s => s.toInt?
  | _ => none

/-- Validated read of an int-typed argument field. -/
def getIntArg (args : Args) (name : String) : Option Int :=
  (lookupA name args).bind coerceInt

/-- Pydantic validation of a `str` field. -/
def coerceStr : JValue → Option String
  | .str s => some s
  | _ => none

/-- The offending-field report of pydantic validation for one int field:
empty when the field validates, the field name otherwise (missing field
or wrong type — both error messages name the field). -/
def fieldIntErr (args : Args) (name : String) : List String :=
  if (getIntArg args name).isSome then [] else [name]

/-- Offending fields of the `multiply` tool signature
`(first_number : int, second_number : int)`. -/
def multiplyErrs (args : Args) : List String :=
  fieldIntErr args "first_number" ++ fieldIntErr args "second_number"

/-- The value or raised exception of `tool_mapping[name].invoke(args)`:
pydantic validates the arguments against the tool's declared signature,
then the tool body runs (`first * second` for `multiply`; the Tavily
call for `search`).  An unknown name raises `KeyError` at the
`tool_mapping` lookup itself. -/
def invokeResult (f : SearchFn) (name : String) (args : Args) :
    Except ExecFailure ToolResult :=
  if name = "search" then
    match (lookupA "query" args).bind coerceStr with
    | none => .error (.invalidArguments ["query"])
    | some q =>
        match f q with
        | .ok items => .ok (.list items)
        | .error m => .error (.executionError m)
  else if name = "multiply" then
    match getIntArg args "first_number", getIntArg args "second_number" with
    | some a, some b => .ok (.int (a * b))
    | _, _ => .error (.invalidArguments (multiplyErrs args))
  else
    .error (.executionError ("KeyError: " ++ name))

/-- `tool_mapping[name].invoke(args)` with the ghost invocation log:
the call is recorded and `invokeResult` is its outcome. -/
def invokeTool (f : SearchFn) (name : String) (args : Args)
    (log : List (String × Args)) :
    Except ExecFailure ToolResult × List (String × Args) :=
  (invokeResult f name args, (name, args) :: log)

/-- One tool call of the model response (`tool_call["function"]` with its
arguments already `json.loads`-parsed). -/
structure ToolCall where
  name : String
  arguments : Args
  deriving DecidableEq, Repr

/-- The parsed output of the opaque inference call
`model_with_tools.invoke(...)`: text content plus the (possibly empty)
list `response.additional_kwargs["tool_calls"]`. -/
structure AIResponse where
  content : String
  tool_calls : List ToolCall
  deriving DecidableEq, Repr

/-- The `approval_request` payload of a gated response. -/
structure ApprovalRequestInfo where
  approval_id : String
  tool_name : String
  query : JValue
  message : String
  deriving DecidableEq, Repr

/-- The `MessageResponse` pydantic model. -/
structure MessageResponse where
  type : String
  message : Option String
  approval_request : Option ApprovalRequestInfo
  session_id : String
  deriving DecidableEq, Repr

/-- The `MessageRequest` body of `POST /chat`. -/
structure MessageRequest where
  message : String
  session_id : Option String
  deriving DecidableEq, Repr

/-- The `ApprovalRequest` body of `POST /approve`. -/
structure ApprovalRequest where
  approval_id : String
  approved : Bool
  deriving DecidableEq, Repr

/-- A raised `HTTPException(status_code, detail)`. -/
inductive HTTPError where
  | httpException (status : Nat) (detail : String)
  deriving DecidableEq, Repr

/-- `process_ai_response(user_input, session_id)`.  The inference output
`aiResp` and the uuid4 draw `approvalUuid` are explicit inputs; the state
is threaded.  Mirrors `src/app.py` lines 60-128. -/
def process_ai_response (f : SearchFn) (aiResp : AIResponse)
    (approvalUuid : String) (user_input session_id : String)
    (st : AppState) : MessageResponse × AppState :=
  match aiResp.tool_calls.head? with
  | none =>
      (⟨"ai_response", some aiResp.content, none, session_id⟩, st)
  | some tool_call =>
      let tool_name := tool_call.name
      let tool_args := tool_call.arguments
      if tool_name = "search" then
        let query := (lookupA "query" tool_args).getD (.str "")
        let entry : ApprovalData := ⟨session_id, tool_name, tool_args, user_input⟩
        (⟨"approval_request", none,
          some ⟨approvalUuid, tool_name, query,
                "I want to search for: \x27" ++ query.pyStr
                  ++ "\x27. Do you approve?"⟩,
          session_id⟩,
         { st with pending_approvals :=
             updateA approvalUuid entry st.pending_approvals })
      else if tool_name = "multiply" then
        let r := invokeTool f tool_name tool_args st.executed
        match r.1 with
        | .ok res =>
            (⟨"ai_response", some ("The result is: " ++ res.pyStr), none,
              session_id⟩,
             { st with executed := r.2 })
        | .error e =>
            (⟨"ai_response", some ("Error in calculation: " ++ failureMsg e),
              none, session_id⟩,
             { st with executed := r.2 })
      else
        (⟨"ai_response", some "I\x27m not sure how to handle that request.",
          none, session_id⟩, st)

/-- `request.session_id or str(uuid.uuid4())` — Python `or` treats the
empty string as falsy. -/
def sessionOrNew (reqSession : Option String) (uuid : String) : String :=
  match reqSession with
  | some s => if s = "" then uuid else s
  | none => uuid

/-- `POST /chat` (`src/app.py` lines 130-160): resolve or create the
session, append the user turn, run `process_ai_response`, and append the
reply as an `"ai"` turn unless it is an approval request.  The
`except Exception` → HTTP 500 re-raise is unreachable here because every
failure inside `process_ai_response` is already handled there (the
external inference call is taken as an input). -/
def chat (f : SearchFn) (aiResp : AIResponse)
    (sessionUuid approvalUuid : String) (request : MessageRequest)
    (st : AppState) : Except HTTPError MessageResponse × AppState :=
  let session_id := sessionOrNew request.session_id sessionUuid
  let msgs1 := (lookupA session_id st.sessions).getD []
               ++ [⟨"user", request.message⟩]
  let st1 := { st with sessions := updateA session_id msgs1 st.sessions }
  let rs := process_ai_response f aiResp approvalUuid request.message
              session_id st1
  if rs.1.type = "ai_response" then
    let msgs2 := (lookupA session_id rs.2.sessions).getD []
                 ++ [⟨"ai", rs.1.message.getD ""⟩]
    (.ok rs.1, { rs.2 with sessions := updateA session_id msgs2 rs.2.sessions })
  else
    (.ok rs.1, rs.2)

/-- Formatting of one search-result item (`src/app.py` lines 185-189):
`f"{i}. {title}\n{content}\n{url}\n\n"` with `content` truncated to 200
characters plus `"..."`. -/
def formatItem (idx : Nat) (item : SearchItem) : String :=
  toString idx ++ ". " ++ item.title.getD "No title" ++ "\n"
    ++ ((item.content.getD "No content").take 200 ++ "...") ++ "\n"
    ++ item.url.getD "" ++ "\n\n"

/-- `"Search results:\n\n"` followed by the first three items, numbered
from 1. -/
def formatSearchResults (items : List SearchItem) : String :=
  "Search results:\n\n"
    ++ String.join ((items.take 3).enum.map (fun p => formatItem (p.1 + 1) p.2))

/-- The reply text computed by the `try`/`except` body of
`approve_action` for a found ledger entry, together with the updated
invocation log: on approval the tool is invoked and its result formatted
(search lists specially), a raised exception becoming
`"Error executing action: " + str(e)`; on denial the cancellation
notice. -/
def approveMessage (f : SearchFn) (approval_data : ApprovalData)
    (approved : Bool) (log : List (String × Args)) :
    String × List (String × Args) :=
  if approved then
    let r := invokeTool f approval_data.tool_name approval_data.tool_args log
    (match r.1 with
     | .ok res =>
         if approval_data.tool_name = "search" then
           match res with
           | .list items => formatSearchResults items
           | .int n => "Tool executed successfully: " ++ ToolResult.pyStr (.int n)
         else "Tool executed successfully: " ++ res.pyStr
     | .error e => "Error executing action: " ++ failureMsg e, r.2)
  else
    ("Action cancelled by user.", log)

/-- `if session_id in sessions: sessions[session_id]["messages"].append(...)`
with an `"ai"` turn carrying the reply text. -/
def appendAiTurn (session_id message : String)
    (sessions : List (String × List Turn)) : List (String × List Turn) :=
  match lookupA session_id sessions with
  | some msgs => updateA session_id (msgs ++ [⟨"ai", message⟩]) sessions
  | none => sessions

/-- `POST /approve` (`src/app.py` lines 162-227).  An absent token raises
`HTTPException(404, "Approval request not found")` before the `try`
block, leaving the state untouched.  For a found entry, every branch of
the `try`/`except` returns a normal `ai_response` carrying the computed
message, appends it to the owning session when that session exists, and
the `finally` block deletes the ledger entry in all of them. -/
def approve_action (f : SearchFn) (request : ApprovalRequest)
    (st : AppState) : Except HTTPError MessageResponse × AppState :=
  match lookupA request.approval_id st.pending_approvals with
  | none => (.error (.httpException 404 "Approval request not found"), st)
  | some approval_data =>
      let ml := approveMessage f approval_data request.approved st.executed
      (.ok ⟨"ai_response", some ml.1, none, approval_data.session_id⟩,
       ⟨appendAiTurn approval_data.session_id ml.1 st.sessions,
        eraseA request.approval_id st.pending_approvals,
        ml.2⟩)

/-! ### Dictionary lemmas -/

theorem lookupA_updateA_self {α : Type} (k : String) (v : α)
    (l : List (String × α)) : lookupA k (updateA k v l) = some v := by
  induction l with
  | nil => simp [updateA, lookupA]
  | cons p rest ih =>
      obtain ⟨k', v'⟩ := p
      by_cases h : k' = k
      · simp [updateA, h, lookupA]
      · simp [updateA, h, lookupA, ih]

theorem lookupA_eraseA_self {α : Type} (k : String)
    (l : List (String × α)) : lookupA k (eraseA k l) = none := by
  induction l with
  | nil => simp [eraseA, lookupA]
  | cons p rest ih =>
      obtain ⟨k', v'⟩ := p
      by_cases h : k' = k
      · simp [eraseA, h, ih]
      · simp [eraseA, h, lookupA, ih]

/-! ### Concrete scenario data, used by the witnesses -/

/-- A one-item result list the opaque search provider may return. -/
def sampleItems : List SearchItem :=
  [⟨some "Headline", some "Body text", some "https://example.org"⟩]

/-- A search provider that answers every query with `sampleItems`. -/
def searchOk : SearchFn := fun _ => Except.ok sampleItems

/-- A search provider whose call raises (provider outage). -/
def searchDown : SearchFn := fun _ => Except.error "provider unavailable"

/-- Arguments of a filed search request. -/
def sampleArgs : Args := [("query", JValue.str "news")]

/-- A filed ledger entry owned by session `"s1"`. -/
def sampleEntry : ApprovalData := ⟨"s1", "search", sampleArgs, "search for news"⟩

/-- A state holding session `"s1"` (one user turn) and the outstanding
token `"tok1"` for `sampleEntry`. -/
def sampleState : AppState :=
  ⟨[("s1", [⟨"user", "search for news"⟩])], [("tok1", sampleEntry)], []⟩

/-! ### Claims -/

/-- C1: approval tokens are single-use — when a token is outstanding in
the ledger, the decision endpoint resolves it successfully (a normal
reply), and any later decision call with the same token fails with the
404 not-found error and leaves the state untouched, rather than silently
succeeding or no-opping. -/
theorem approval_token_single_use (f f' : SearchFn)
    (dreq dreq' : ApprovalRequest) (st : AppState)
    (approval_data : ApprovalData)
    (h : lookupA dreq.approval_id st.pending_approvals = some approval_data)
    (h2 : dreq'.approval_id = dreq.approval_id) :
    (∃ resp, (approve_action f dreq st).1 = Except.ok resp) ∧
    approve_action f' dreq' (approve_action f dreq st).2 =
      (Except.error (HTTPError.httpException 404 "Approval request not found"),
       (approve_action f dreq st).2) := by
  constructor
  · exact ⟨⟨"ai_response",
      some (approveMessage f approval_data dreq.approved st.executed).1,
      none, approval_data.session_id⟩, by simp [approve_action, h]⟩
  · simp [approve_action, h, h2, lookupA_eraseA_self]

theorem approval_token_single_use_witness :
    (∃ resp,
      (approve_action searchOk ⟨"tok1", true⟩ sampleState).1 = Except.ok resp) ∧
    approve_action searchOk ⟨"tok1", false⟩
        (approve_action searchOk ⟨"tok1", true⟩ sampleState).2 =
      (Except.error (HTTPError.httpException 404 "Approval request not found"),
       (approve_action searchOk ⟨"tok1", true⟩ sampleState).2) :=
  approval_token_single_use searchOk searchOk ⟨"tok1", true⟩ ⟨"tok1", false⟩
    sampleState sampleEntry (by decide) rfl

/-- C3: denying a valid outstanding token yields the cancellation reply,
invokes no tool, removes the ledger entry, and a subsequent resolution of
the same token fails with the 404 not-found error. -/
theorem denial_cancels_and_retires (f f' : SearchFn)
    (dreq dreq' : ApprovalRequest) (st : AppState)
    (approval_data : ApprovalData)
    (h : lookupA dreq.approval_id st.pending_approvals = some approval_data)
    (hden : dreq.approved = false)
    (h2 : dreq'.approval_id = dreq.approval_id) :
    (approve_action f dreq st).1 =
      Except.ok ⟨"ai_response", some "Action cancelled by user.", none,
                 approval_data.session_id⟩ ∧
    (approve_action f dreq st).2.executed = st.executed ∧
    lookupA dreq.approval_id (approve_action f dreq st).2.pending_approvals
      = none ∧
    (approve_action f' dreq' (approve_action f dreq st).2).1 =
      Except.error (HTTPError.httpException 404 "Approval request not found") := by
  refine ⟨?_, ?_, ?_, ?_⟩ <;>
    simp [approve_action, h, hden, approveMessage, h2, lookupA_eraseA_self]

theorem denial_cancels_and_retires_witness :
    (approve_action searchOk ⟨"tok1", false⟩ sampleState).1 =
      Except.ok ⟨"ai_response", some "Action cancelled by user.", none,
                 sampleEntry.session_id⟩ ∧
    (approve_action searchOk ⟨"tok1", false⟩ sampleState).2.executed
      = sampleState.executed ∧
    lookupA "tok1"
      (approve_action searchOk ⟨"tok1", false⟩ sampleState).2.pending_approvals
      = none ∧
    (approve_action searchDown ⟨"tok1", true⟩
        (approve_action searchOk ⟨"tok1", false⟩ sampleState).2).1 =
      Except.error (HTTPError.httpException 404 "Approval request not found") :=
  denial_cancels_and_retires searchOk searchDown ⟨"tok1", false⟩ ⟨"tok1", true⟩
    sampleState sampleEntry (by decide) rfl rfl

/-- C4: a decision for a token not present in the ledger (never filed or
already resolved) returns the 404 not-found error and leaves the whole
state — in particular every session transcript — unchanged. -/
theorem unknown_token_no_mutation (f : SearchFn) (dreq : ApprovalRequest)
    (st : AppState)
    (h : lookupA dreq.approval_id st.pending_approvals = none) :
    approve_action f dreq st =
      (Except.error (HTTPError.httpException 404 "Approval request not found"),
       st) := by
  simp [approve_action, h]

theorem unknown_token_no_mutation_witness :
    approve_action searchOk ⟨"ghost", true⟩ sampleState =
      (Except.error (HTTPError.httpException 404 "Approval request not found"),
       sampleState) :=
  unknown_token_no_mutation searchOk ⟨"ghost", true⟩ sampleState (by decide)

/-- `process_ai_response` never touches the session store: only `chat`
appends turns. -/
theorem process_sessions_const (f : SearchFn) (aiResp : AIResponse)
    (au u sid : String) (st : AppState) :
    (process_ai_response f aiResp au u sid st).2.sessions = st.sessions := by
  unfold process_ai_response
  cases hh : aiResp.tool_calls.head? with
  | none => rfl
  | some tc =>
      by_cases h1 : tc.name = "search"
      · simp [h1]
      · by_cases h2 : tc.name = "multiply"
        · cases hr : invokeResult f "multiply" tc.arguments <;>
            simp [h1, h2, invokeTool, hr]
        · simp [h1, h2]

/-- C5: an AUTO-classified `multiply` proposal with valid arguments is
executed during the submit-utterance request itself, and the direct reply
text is exactly `"The result is: "` followed by the decimal
representation of the product. -/
theorem auto_multiply_embeds_result (f : SearchFn) (aiResp : AIResponse)
    (su au : String) (mreq : MessageRequest) (st : AppState)
    (tc : ToolCall) (a b : Int)
    (h1 : aiResp.tool_calls.head? = some tc)
    (h2 : tc.name = "multiply")
    (ha : getIntArg tc.arguments "first_number" = some a)
    (hb : getIntArg tc.arguments "second_number" = some b) :
    (chat f aiResp su au mreq st).1 =
      Except.ok ⟨"ai_response", some ("The result is: " ++ toString (a * b)),
                 none, sessionOrNew mreq.session_id su⟩ := by
  simp [chat, process_ai_response, h1, h2, invokeTool, invokeResult, ha, hb,
    ToolResult.pyStr]

theorem auto_multiply_embeds_result_witness :
    (chat searchOk
        ⟨"", [⟨"multiply", [("first_number", JValue.int 7),
                            ("second_number", JValue.int 6)]⟩]⟩
        "s2" "tok2" ⟨"what is 7 times 6?", none⟩ sampleState).1 =
      Except.ok ⟨"ai_response", some "The result is: 42", none,
                 sessionOrNew none "s2"⟩ :=
  auto_multiply_embeds_result searchOk
    ⟨"", [⟨"multiply", [("first_number", JValue.int 7),
                        ("second_number", JValue.int 6)]⟩]⟩
    "s2" "tok2" ⟨"what is 7 times 6?", none⟩ sampleState
    ⟨"multiply", [("first_number", JValue.int 7),
                  ("second_number", JValue.int 6)]⟩ 7 6
    rfl rfl rfl rfl

/-- C7: a proposed action whose name is neither `search` nor `multiply`
short-circuits to the static fallback reply: no tool is invoked, no
ledger entry is filed, and the fallback is still recorded as an agent
turn of the session. -/
theorem unknown_action_fallback (f : SearchFn) (aiResp : AIResponse)
    (su au : String) (mreq : MessageRequest) (st : AppState) (tc : ToolCall)
    (h1 : aiResp.tool_calls.head? = some tc)
    (h2 : tc.name ≠ "search") (h3 : tc.name ≠ "multiply") :
    (chat f aiResp su au mreq st).1 =
      Except.ok ⟨"ai_response",
                 some "I\x27m not sure how to handle that request.",
                 none, sessionOrNew mreq.session_id su⟩ ∧
    (chat f aiResp su au mreq st).2.executed = st.executed ∧
    (chat f aiResp su au mreq st).2.pending_approvals
      = st.pending_approvals ∧
    lookupA (sessionOrNew mreq.session_id su)
        (chat f aiResp su au mreq st).2.sessions =
      some ((lookupA (sessionOrNew mreq.session_id su) st.sessions).getD []
        ++ [⟨"user", mreq.message⟩,
            ⟨"ai", "I\x27m not sure how to handle that request."⟩]) := by
  refine ⟨?_, ?_, ?_, ?_⟩ <;>
    simp [chat, process_ai_response, h1, h2, h3, lookupA_updateA_self]

theorem unknown_action_fallback_witness :
    (chat searchOk ⟨"", [⟨"translate", []⟩]⟩ "s9" "tok9"
        ⟨"translate this", some "s1"⟩ sampleState).1 =
      Except.ok ⟨"ai_response",
                 some "I\x27m not sure how to handle that request.",
                 none, sessionOrNew (some "s1") "s9"⟩ ∧
    (chat searchOk ⟨"", [⟨"translate", []⟩]⟩ "s9" "tok9"
        ⟨"translate this", some "s1"⟩ sampleState).2.executed
      = sampleState.executed ∧
    (chat searchOk ⟨"", [⟨"translate", []⟩]⟩ "s9" "tok9"
        ⟨"translate this", some "s1"⟩ sampleState).2.pending_approvals
      = sampleState.pending_approvals ∧
    lookupA (sessionOrNew (some "s1") "s9")
        (chat searchOk ⟨"", [⟨"translate", []⟩]⟩ "s9" "tok9"
          ⟨"translate this", some "s1"⟩ sampleState).2.sessions =
      some ((lookupA (sessionOrNew (some "s1") "s9")
              sampleState.sessions).getD []
        ++ [⟨"user", "translate this"⟩,
            ⟨"ai", "I\x27m not sure how to handle that request."⟩]) :=
  unknown_action_fallback searchOk ⟨"", [⟨"translate", []⟩]⟩ "s9" "tok9"
    ⟨"translate this", some "s1"⟩ sampleState ⟨"translate", []⟩
    rfl (by decide) (by decide)

/-- The search proposal used by the concrete scenarios. -/
def aiSearch : AIResponse := ⟨"", [⟨"search", sampleArgs⟩]⟩

/-- C2: a GATED `search` proposal is never executed during the
submit-utterance request — `chat` leaves the invocation log unchanged,
returns an approval-request descriptor and files the ledger entry — and
the decision endpoint adds an invocation to the log only when its token
resolves successfully with `approved = true`, and then exactly the filed
action. -/
theorem gated_search_deferred (f g : SearchFn) (aiResp : AIResponse)
    (su au : String) (mreq : MessageRequest) (st : AppState) (tc : ToolCall)
    (dreq : ApprovalRequest) (st2 : AppState) (e : String × Args)
    (h1 : aiResp.tool_calls.head? = some tc)
    (h2 : tc.name = "search")
    (h3 : e ∈ (approve_action g dreq st2).2.executed) :
    (chat f aiResp su au mreq st).2.executed = st.executed ∧
    (∃ resp, (chat f aiResp su au mreq st).1 = Except.ok resp ∧
       resp.type = "approval_request") ∧
    lookupA au (chat f aiResp su au mreq st).2.pending_approvals =
      some ⟨sessionOrNew mreq.session_id su, "search", tc.arguments,
            mreq.message⟩ ∧
    (e ∈ st2.executed ∨
      ∃ ad, lookupA dreq.approval_id st2.pending_approvals = some ad ∧
        dreq.approved = true ∧ e = (ad.tool_name, ad.tool_args)) := by
  refine ⟨?_, ?_, ?_, ?_⟩
  · simp [chat, process_ai_response, h1, h2]
  · refine ⟨⟨"approval_request", none,
      some ⟨au, "search",
        (lookupA "query" tc.arguments).getD (.str ""),
        "I want to search for: \x27"
          ++ ((lookupA "query" tc.arguments).getD (.str "")).pyStr
          ++ "\x27. Do you approve?"⟩,
      sessionOrNew mreq.session_id su⟩, ?_, rfl⟩
    simp [chat, process_ai_response, h1, h2]
  · simp [chat, process_ai_response, h1, h2, lookupA_updateA_self]
  · rcases hl : lookupA dreq.approval_id st2.pending_approvals with _ | ad
    · left
      simpa [approve_action, hl] using h3
    · cases hap : dreq.approved
      · left
        simpa [approve_action, hl, approveMessage, hap] using h3
      · have hex : (approve_action g dreq st2).2.executed
            = (ad.tool_name, ad.tool_args) :: st2.executed := by
          simp [approve_action, hl, approveMessage, hap, invokeTool]
        rw [hex] at h3
        rcases List.mem_cons.mp h3 with h4 | h4
        · exact Or.inr ⟨ad, rfl, rfl, h4⟩
        · exact Or.inl h4

theorem gated_search_deferred_witness :
    (chat searchOk aiSearch "s9" "tok9"
        ⟨"please search news", some "s1"⟩ sampleState).2.executed
      = sampleState.executed ∧
    (∃ resp, (chat searchOk aiSearch "s9" "tok9"
        ⟨"please search news", some "s1"⟩ sampleState).1 = Except.ok resp ∧
       resp.type = "approval_request") ∧
    lookupA "tok9"
        (chat searchOk aiSearch "s9" "tok9"
          ⟨"please search news", some "s1"⟩ sampleState).2.pending_approvals =
      some ⟨sessionOrNew (some "s1") "s9", "search", sampleArgs,
            "please search news"⟩ ∧
    (("search", sampleArgs) ∈ sampleState.executed ∨
      ∃ ad, lookupA "tok1" sampleState.pending_approvals = some ad ∧
        true = true ∧ ("search", sampleArgs) = (ad.tool_name, ad.tool_args)) :=
  gated_search_deferred searchOk searchOk aiSearch "s9" "tok9"
    ⟨"please search news", some "s1"⟩ sampleState ⟨"search", sampleArgs⟩
    ⟨"tok1", true⟩ sampleState ("search", sampleArgs)
    rfl rfl (by decide)

/-- Helper for C6: `chat` always answers `.ok`, and the resulting
transcript of the addressed session is the old transcript, then the user
turn, then — exactly when the reply is an `ai_response` — the agent
turn.  An approval request appends no agent turn. -/
theorem chat_transcript (f : SearchFn) (aiResp : AIResponse)
    (su au : String) (mreq : MessageRequest) (st : AppState) :
    ∃ resp, (chat f aiResp su au mreq st).1 = Except.ok resp ∧
      lookupA (sessionOrNew mreq.session_id su)
          (chat f aiResp su au mreq st).2.sessions =
        some ((lookupA (sessionOrNew mreq.session_id su) st.sessions).getD []
          ++ [⟨"user", mreq.message⟩]
          ++ (if resp.type = "ai_response"
              then [⟨"ai", resp.message.getD ""⟩] else [])) := by
  simp only [chat]
  split
  case isTrue ht =>
    refine ⟨_, rfl, ?_⟩
    simp [ht, process_sessions_const, lookupA_updateA_self]
  case isFalse ht =>
    refine ⟨_, rfl, ?_⟩
    simp [ht, process_sessions_const, lookupA_updateA_self]

/-- C6: the approval-request suspension is not recorded in the
transcript, but every completed reply is — `chat` appends an agent turn
exactly when it returns an `ai_response` (so never for an approval
request), and a resolved decision appends its reply as an agent turn of
the owning session. -/
theorem transcript_asymmetry (f g : SearchFn) (aiResp : AIResponse)
    (su au : String) (mreq : MessageRequest) (st : AppState)
    (dreq : ApprovalRequest) (st2 : AppState) (ad : ApprovalData)
    (msgs2 : List Turn)
    (h : lookupA dreq.approval_id st2.pending_approvals = some ad)
    (hs : lookupA ad.session_id st2.sessions = some msgs2) :
    (∃ resp, (chat f aiResp su au mreq st).1 = Except.ok resp ∧
      lookupA (sessionOrNew mreq.session_id su)
          (chat f aiResp su au mreq st).2.sessions =
        some ((lookupA (sessionOrNew mreq.session_id su) st.sessions).getD []
          ++ [⟨"user", mreq.message⟩]
          ++ (if resp.type = "ai_response"
              then [⟨"ai", resp.message.getD ""⟩] else []))) ∧
    (∃ resp2, (approve_action g dreq st2).1 = Except.ok resp2 ∧
      resp2.type = "ai_response" ∧
      lookupA ad.session_id (approve_action g dreq st2).2.sessions =
        some (msgs2 ++ [⟨"ai", resp2.message.getD ""⟩])) := by
  refine ⟨chat_transcript f aiResp su au mreq st, ?_⟩
  refine ⟨⟨"ai_response",
    some (approveMessage g ad dreq.approved st2.executed).1,
    none, ad.session_id⟩, ?_, rfl, ?_⟩
  · simp [approve_action, h]
  · simp [approve_action, h, appendAiTurn, hs, lookupA_updateA_self]

theorem transcript_asymmetry_witness :
    (∃ resp, (chat searchOk aiSearch "s9" "tok9"
        ⟨"please search news", some "s1"⟩ sampleState).1 = Except.ok resp ∧
      lookupA (sessionOrNew (some "s1") "s9")
          (chat searchOk aiSearch "s9" "tok9"
            ⟨"please search news", some "s1"⟩ sampleState).2.sessions =
        some ((lookupA (sessionOrNew (some "s1") "s9")
                sampleState.sessions).getD []
          ++ [⟨"user", "please search news"⟩]
          ++ (if resp.type = "ai_response"
              then [⟨"ai", resp.message.getD ""⟩] else []))) ∧
    (∃ resp2, (approve_action searchOk ⟨"tok1", false⟩ sampleState).1 =
        Except.ok resp2 ∧
      resp2.type = "ai_response" ∧
      lookupA sampleEntry.session_id
          (approve_action searchOk ⟨"tok1", false⟩ sampleState).2.sessions =
        some ([⟨"user", "search for news"⟩] ++ [⟨"ai", resp2.message.getD ""⟩])) :=
  transcript_asymmetry searchOk searchOk aiSearch "s9" "tok9"
    ⟨"please search news", some "s1"⟩ sampleState ⟨"tok1", false⟩ sampleState
    sampleEntry [⟨"user", "search for news"⟩] (by decide) (by decide)

/-- C8: an action invoked with arguments that do not satisfy its declared
shape fails with the distinct `InvalidArguments` failure (not a generic
execution error), and the carried field list names exactly the offending
fields of the `multiply` signature. -/
theorem invalid_arguments_names_fields (f : SearchFn) (args : Args)
    (log : List (String × Args))
    (h : multiplyErrs args ≠ []) :
    (invokeTool f "multiply" args log).1 =
      Except.error (ExecFailure.invalidArguments (multiplyErrs args)) ∧
    (∀ name, name ∈ multiplyErrs args →
      (name = "first_number" ∨ name = "second_number") ∧
        getIntArg args name = none) ∧
    (getIntArg args "first_number" = none →
      "first_number" ∈ multiplyErrs args) ∧
    (getIntArg args "second_number" = none →
      "second_number" ∈ multiplyErrs args) := by
  refine ⟨?_, ?_, ?_, ?_⟩
  · cases hf : getIntArg args "first_number" with
    | none => simp [invokeTool, invokeResult, hf]
    | some a =>
        cases hs : getIntArg args "second_number" with
        | none => simp [invokeTool, invokeResult, hf, hs]
        | some b =>
            exact absurd (by simp [multiplyErrs, fieldIntErr, hf, hs]) h
  · intro name hmem
    rcases hf : getIntArg args "first_number" with _ | a
    · rcases hs : getIntArg args "second_number" with _ | b
      · simp [multiplyErrs, fieldIntErr, hf, hs] at hmem
        rcases hmem with rfl | rfl
        · exact ⟨Or.inl rfl, hf⟩
        · exact ⟨Or.inr rfl, hs⟩
      · simp [multiplyErrs, fieldIntErr, hf, hs] at hmem
        subst hmem
        exact ⟨Or.inl rfl, hf⟩
    · rcases hs : getIntArg args "second_number" with _ | b
      · simp [multiplyErrs, fieldIntErr, hf, hs] at hmem
        subst hmem
        exact ⟨Or.inr rfl, hs⟩
      · simp [multiplyErrs, fieldIntErr, hf, hs] at hmem
  · intro hf
    simp [multiplyErrs, fieldIntErr, hf]
  · intro hs
    simp [multiplyErrs, fieldIntErr, hs]

/-- A `multiply` argument set of the wrong shape: `first_number` has a
non-integer type and `second_number` is missing. -/
def badArgs : Args := [("first_number", JValue.bool true)]

theorem invalid_arguments_names_fields_witness :
    (invokeTool searchOk "multiply" badArgs []).1 =
      Except.error (ExecFailure.invalidArguments
        ["first_number", "second_number"]) ∧
    "first_number" ∈ multiplyErrs badArgs ∧
    "second_number" ∈ multiplyErrs badArgs := by
  have h := invalid_arguments_names_fields searchOk badArgs [] (by decide)
  exact ⟨h.1, h.2.2.1 (by decide), h.2.2.2 (by decide)⟩

/-- C9: no engine-level error is fatal at the transport boundary —
`chat` always produces a normal reply, and the decision endpoint either
produces a normal reply or the client-visible 404 not-found error, the
latter exactly for tokens absent from the ledger. -/
theorem engine_errors_nonfatal (f g : SearchFn) (aiResp : AIResponse)
    (su au : String) (mreq : MessageRequest) (st st2 : AppState)
    (dreq : ApprovalRequest) :
    (∃ resp st', chat f aiResp su au mreq st = (Except.ok resp, st')) ∧
    ((∃ resp2 st2', approve_action g dreq st2 = (Except.ok resp2, st2')) ∨
      (approve_action g dreq st2 =
        (Except.error (HTTPError.httpException 404 "Approval request not found"),
         st2) ∧
       lookupA dreq.approval_id st2.pending_approvals = none)) := by
  constructor
  · simp only [chat]
    split
    · exact ⟨_, _, rfl⟩
    · exact ⟨_, _, rfl⟩
  · rcases hl : lookupA dreq.approval_id st2.pending_approvals with _ | ad
    · exact Or.inr ⟨by simp [approve_action, hl], rfl⟩
    · refine Or.inl ⟨⟨"ai_response",
        some (approveMessage g ad dreq.approved st2.executed).1,
        none, ad.session_id⟩,
        ⟨appendAiTurn ad.session_id
            (approveMessage g ad dreq.approved st2.executed).1 st2.sessions,
          eraseA dreq.approval_id st2.pending_approvals,
          (approveMessage g ad dreq.approved st2.executed).2⟩, ?_⟩
      simp [approve_action, hl]

/-- C10: when an approved execution raises, the decision endpoint still
retires the ledger entry, appends the error message as an agent turn of
the owning session, returns it as a normal reply, and a retry with the
same token fails with the 404 not-found error. -/
theorem failed_execution_retires_token (f f' : SearchFn)
    (dreq dreq' : ApprovalRequest) (st : AppState) (ad : ApprovalData)
    (msgs : List Turn) (e : ExecFailure)
    (h : lookupA dreq.approval_id st.pending_approvals = some ad)
    (happ : dreq.approved = true)
    (hfail : invokeResult f ad.tool_name ad.tool_args = Except.error e)
    (hs : lookupA ad.session_id st.sessions = some msgs)
    (h2 : dreq'.approval_id = dreq.approval_id) :
    (approve_action f dreq st).1 =
      Except.ok ⟨"ai_response",
        some ("Error executing action: " ++ failureMsg e), none,
        ad.session_id⟩ ∧
    lookupA dreq.approval_id
        (approve_action f dreq st).2.pending_approvals = none ∧
    lookupA ad.session_id (approve_action f dreq st).2.sessions =
      some (msgs ++ [⟨"ai", "Error executing action: " ++ failureMsg e⟩]) ∧
    (approve_action f' dreq' (approve_action f dreq st).2).1 =
      Except.error (HTTPError.httpException 404 "Approval request not found") := by
  refine ⟨?_, ?_, ?_, ?_⟩ <;>
    simp [approve_action, h, happ, approveMessage, invokeTool, hfail,
      appendAiTurn, hs, lookupA_updateA_self, lookupA_eraseA_self, h2]

theorem failed_execution_retires_token_witness :
    (approve_action searchDown ⟨"tok1", true⟩ sampleState).1 =
      Except.ok ⟨"ai_response",
        some ("Error executing action: "
          ++ failureMsg (ExecFailure.executionError "provider unavailable")),
        none, sampleEntry.session_id⟩ ∧
    lookupA "tok1"
        (approve_action searchDown ⟨"tok1", true⟩ sampleState).2.pending_approvals
      = none ∧
    lookupA sampleEntry.session_id
        (approve_action searchDown ⟨"tok1", true⟩ sampleState).2.sessions =
      some ([⟨"user", "search for news"⟩]
        ++ [⟨"ai", "Error executing action: "
              ++ failureMsg (ExecFailure.executionError "provider unavailable")⟩]) ∧
    (approve_action searchOk ⟨"tok1", true⟩
        (approve_action searchDown ⟨"tok1", true⟩ sampleState).2).1 =
      Except.error (HTTPError.httpException 404 "Approval request not found") :=
  failed_execution_retires_token searchDown searchOk ⟨"tok1", true⟩
    ⟨"tok1", true⟩ sampleState sampleEntry [⟨"user", "search for news"⟩]
    (ExecFailure.executionError "provider unavailable")
    (by decide) rfl rfl (by decide) rfl

end HITL
